import Mathlib

/-!
Shallow embedding of the point-of-sale back-office views in
`apps/accounts/views.py` (Django).  Rows of the relational store are plain
structures; the persisted store is a record of lists; each view becomes a
pure function from a principal, a store and the request data to the new
store, the emitted notification messages and the response.

Monetary amounts are modelled in integer cents (`Nat`); Python's
`f"{x:.2f}"` on such an amount is the function `fmt2`.  Form validation
lives in `apps/accounts/forms.py`, which is not part of the sources under
inspection, so each form carries its validation verdict as a boolean field
(`isValid`), mirroring the only way the views consume it
(`form.is_valid()` / `formset.is_valid()`).
-/

/-! ## Case-insensitive substring matching (Django `__icontains`) -/

def startsWithCL : List Char → List Char → Bool
  | [], _ => true
  | _ :: _, [] => false
  | a :: as, b :: bs => a == b && startsWithCL as bs

def containsSub (needle : List Char) : List Char → Bool
  | [] => needle.isEmpty
  | c :: rest => startsWithCL needle (c :: rest) || containsSub needle rest

/-- Django `field__icontains=needle`: case-insensitive substring test. -/
def icontains (hay needle : String) : Bool :=
  containsSub (needle.data.map Char.toLower) (hay.data.map Char.toLower)

/-! ## Ordering (`order_by`): a stable insertion sort on a boolean order -/

def insertSortedBy {α : Type} (le : α → α → Bool) (a : α) : List α → List α
  | [] => [a]
  | b :: t => if le a b then a :: b :: t else b :: insertSortedBy le a t

/-- Source `order_by(key)`: sort the record list by the boolean order `le`. -/
def sortBy {α : Type} (le : α → α → Bool) : List α → List α
  | [] => []
  | a :: t => insertSortedBy le a (sortBy le t)

/-! ## Decimal rendering: Python `f"{x:.2f}"` on an exact cent amount -/

def pad2 (n : Nat) : String := if n < 10 then "0" ++ toString n else toString n

/-- Render `cents` as Python `f"{x:.2f}"` renders the decimal `cents/100`. -/
def fmt2 (cents : Nat) : String := toString (cents / 100) ++ "." ++ pad2 (cents % 100)

/-- The string has a decimal point followed by exactly two digits. -/
def TwoDecimalPlaces (s : String) : Prop :=
  ∃ a b, s = a ++ "." ++ b ∧ b.length = 2 ∧ b.data.all Char.isDigit = true

/-! ## Data model (rows of the relational store) -/

structure User where
  id : Nat
  firstName : String
  lastName : String
  email : String
  role : String
  isActive : Bool
  dateJoined : Nat
deriving Repr, DecidableEq

/-- Django `User.get_full_name()`: first and last name joined, stripped. -/
def User.fullName (u : User) : String :=
  (u.firstName ++ " " ++ u.lastName).trim

structure Supplier where
  id : Nat
  name : String
deriving Repr, DecidableEq

structure Category where
  id : Nat
  name : String
deriving Repr, DecidableEq

structure Product where
  id : Nat
  name : String
deriving Repr, DecidableEq

/-- Wall-clock instant, used for `Sale.date` and `strftime`. -/
structure DateTime where
  year : Nat
  month : Nat
  day : Nat
  hour : Nat
  minute : Nat
deriving Repr, DecidableEq

/-- Total ordering key for a `DateTime` (later instant, larger key). -/
def DateTime.key (d : DateTime) : Nat :=
  (((d.year * 13 + d.month) * 32 + d.day) * 24 + d.hour) * 60 + d.minute

/-- Ordering key of the calendar-date part only (Django `date__date`). -/
def DateTime.dateKey (d : DateTime) : Nat :=
  (d.year * 13 + d.month) * 32 + d.day

/-- Source `strftime("%d/%m/%Y %H:%M")`. -/
def fmtDate (d : DateTime) : String :=
  pad2 d.day ++ "/" ++ pad2 d.month ++ "/" ++ toString d.year ++ " " ++
    pad2 d.hour ++ ":" ++ pad2 d.minute

structure Sale where
  id : Nat
  invoiceNumber : String
  date : DateTime
  cashierId : Nat
  status : String
  totalAmount : Nat
  discount : Option Nat
deriving Repr, DecidableEq

structure SaleItem where
  saleId : Nat
  productId : Nat
  quantity : Nat
  unitPrice : Nat
deriving Repr, DecidableEq

/-- Source `SaleItem.line_total = quantity * unit_price`, in cents. -/
def SaleItem.lineTotal (it : SaleItem) : Nat := it.quantity * it.unitPrice

/-- The persisted relational store. -/
structure Store where
  users : List User
  suppliers : List Supplier
  categories : List Category
  products : List Product
  sales : List Sale
  saleItems : List SaleItem
deriving Repr, DecidableEq

/-! ## Requests, principals, notifications, responses -/

/-- The session principal of a request; `isAdmin` is `user.is_admin()`. -/
inductive Principal where
  | anonymous : Principal
  | user (id : Nat) (isAdmin : Bool) : Principal
deriving Repr, DecidableEq

inductive MsgLevel where
  | success | info | error | danger
deriving Repr, DecidableEq

/-- A `django.contrib.messages` notification. -/
structure Msg where
  level : MsgLevel
  text : String
deriving Repr, DecidableEq

inductive Resp where
  | redirectLogin
  | redirectSaleList
  | redirectEmployeeList
  | redirectSupplierList
  | redirectCategoryList
  | redirectProductList
  | renderForm (hasFieldErrors : Bool)
  | notFound
deriving Repr, DecidableEq

/-- Source `LoginRequiredMixin` + `AdminRequiredMixin`: passes only for an
authenticated admin.  (`test_func` is
`request.user.is_authenticated and request.user.is_admin()`.) -/
def adminViewGuard (p : Principal) : Bool :=
  match p with
  | .anonymous => false
  | .user _ adm => adm

/-- Source `LoginRequiredMixin` alone: passes for any authenticated user. -/
def loginViewGuard (p : Principal) : Bool :=
  match p with
  | .anonymous => false
  | .user _ _ => true

/-- Source `AdminRequiredMixin.handle_no_permission`: error notice + redirect to
login.  It is the `handle_no_permission` in scope for the whole view class,
so both unauthenticated and non-admin rejections run it. -/
def accessDenied (st : Store) : Store × List Msg × Resp :=
  (st, [⟨.error, "Accès refusé : administrateurs uniquement."⟩], .redirectLogin)

/-! ## Forms (validation verdicts are carried as data, see header note) -/

/-- Source `SaleForm`: the sale header form. -/
structure SaleHeaderForm where
  isValid : Bool
  invoiceNumber : String
  date : DateTime
  cashierId : Nat
  status : String
deriving Repr, DecidableEq

/-- One member form of `SaleItemFormSet`. -/
structure SaleItemForm where
  isValid : Bool
  productId : Nat
  quantity : Nat
  unitPrice : Nat
deriving Repr, DecidableEq

/-- Source `RegisterForm` for `UserRegisterView`. -/
structure RegisterForm where
  isValid : Bool
  newUser : User
deriving Repr, DecidableEq

/-! ## Sale aggregation (`sale_create`, `sale_update`) -/

/-- Source `sale.items.all()`: the current SaleItems of sale `sid`. -/
def saleItemsOf (st : Store) (sid : Nat) : List SaleItem :=
  st.saleItems.filter (fun it => it.saleId == sid)

/-- Source `sum(item.line_total for item in sale.items.all())`. -/
def saleTotalFromItems (st : Store) (sid : Nat) : Nat :=
  ((saleItemsOf st sid).map SaleItem.lineTotal).sum

/-- Source `sale.total_amount = t; sale.save()`: store the total on sale `sid`. -/
def setSaleTotal (st : Store) (sid : Nat) (t : Nat) : Store :=
  { st with sales := st.sales.map (fun s =>
      if s.id == sid then { s with totalAmount := t } else s) }

/-- Source `formset.save()` rows for sale `sid` built from the item forms. -/
def itemsFromForms (sid : Nat) (fs : List SaleItemForm) : List SaleItem :=
  fs.map (fun f => ⟨sid, f.productId, f.quantity, f.unitPrice⟩)

/-- Source `sale_create(request)`, POST branch.  `freshId` is the primary key the
store assigns to the new row.  Mirrors the source order: check
`form.is_valid() and formset.is_valid()`; on success save the header, save
the item rows, recompute `total_amount` from `sale.items.all()` and save
it; otherwise fall through to the re-render with no message. -/
def sale_create (st : Store) (freshId : Nat) (hdr : SaleHeaderForm)
    (fs : List SaleItemForm) : Store × List Msg × Resp :=
  if hdr.isValid && fs.all (fun f => f.isValid) then
    let sale : Sale := { id := freshId, invoiceNumber := hdr.invoiceNumber,
                         date := hdr.date, cashierId := hdr.cashierId,
                         status := hdr.status, totalAmount := 0, discount := none }
    let st1 : Store := { st with sales := st.sales ++ [sale] }
    let st2 : Store := { st1 with saleItems := st1.saleItems ++ itemsFromForms freshId fs }
    let st3 : Store := setSaleTotal st2 freshId (saleTotalFromItems st2 freshId)
    (st3, [⟨.success, "Vente " ++ hdr.invoiceNumber ++ " enregistrée."⟩], .redirectSaleList)
  else
    (st, [], .renderForm true)

/-- Source `sale_update(request, pk)`, POST branch.  `formset.save()` may add,
edit and delete item rows of the sale; its net effect is that the sale's
item rows afterwards are exactly the formset's surviving rows, modelled by
replacing the rows with `saleId = pk`.  The total is then recomputed from
`sale.items.all()` and saved, exactly as in the source. -/
def sale_update (st : Store) (pk : Nat) (hdr : SaleHeaderForm)
    (fs : List SaleItemForm) : Store × List Msg × Resp :=
  match st.sales.find? (fun s => s.id == pk) with
  | none => (st, [], .notFound)
  | some _ =>
    if hdr.isValid && fs.all (fun f => f.isValid) then
      let st1 : Store := { st with sales := st.sales.map (fun s =>
          if s.id == pk then
            { s with invoiceNumber := hdr.invoiceNumber, date := hdr.date,
                     cashierId := hdr.cashierId, status := hdr.status }
          else s) }
      let st2 : Store :=
        { st1 with saleItems := st1.saleItems.filter (fun it => it.saleId != pk)
                                  ++ itemsFromForms pk fs }
      let st3 : Store := setSaleTotal st2 pk (saleTotalFromItems st2 pk)
      (st3, [⟨.success, "Vente " ++ hdr.invoiceNumber ++ " mise à jour."⟩], .redirectSaleList)
    else
      (st, [], .renderForm true)

/-- Source `UserRegisterView`: `form_valid` persists and emits a success notice;
`form_invalid` emits an error notice and re-renders with field errors. -/
def registerView (st : Store) (f : RegisterForm) : Store × List Msg × Resp :=
  if f.isValid then
    ({ st with users := st.users ++ [f.newUser] },
     [⟨.success, "Compte créé avec succès, vous pouvez vous connecter."⟩],
     .redirectLogin)
  else
    (st, [⟨.error, "Erreur dans le formulaire, vérifiez vos informations."⟩],
     .renderForm true)

/-! ## Employee management (`EmployeeListView`, detail/update/delete) -/

/-- Source `User.objects.exclude(pk=request.user.pk)`: the base record set of every
employee screen, built with the caller's own row excluded up front. -/
def employeeBase (st : Store) (callerId : Nat) : List User :=
  st.users.filter (fun u => u.id != callerId)

/-- The free-text term of `EmployeeSearchForm`:
`first_name__icontains OR last_name__icontains OR email__icontains`. -/
def matchesEmployeeSearch (u : User) (s : String) : Bool :=
  icontains u.firstName s || icontains u.lastName s || icontains u.email s

/-- Source `EmployeeListView.get_queryset`: exclude self, order by `-date_joined`,
then the optional free-text / role / status filters.  The queryset union
`qs.filter(A) | qs.filter(B) | qs.filter(C)` keeps exactly the rows
matching `A OR B OR C`.  Empty strings model absent/blank parameters
(Python truthiness of `cleaned_data.get(...)`). -/
def employeeListQueryset (st : Store) (callerId : Nat)
    (search role status : String) : List User :=
  let qs := sortBy (fun a b => decide (b.dateJoined ≤ a.dateJoined))
      (employeeBase st callerId)
  let qs := if search != "" then qs.filter (fun u => matchesEmployeeSearch u search) else qs
  let qs := if role != "" then qs.filter (fun u => u.role == role) else qs
  if status == "active" then qs.filter (fun u => u.isActive)
  else if status == "inactive" then qs.filter (fun u => !u.isActive)
  else qs

/-- Source `get_object()` of the employee detail/update/delete views: single-row
lookup inside `get_queryset() = User.objects.exclude(pk=request.user.pk)`;
`none` is the Http404 outcome. -/
def employeeGetObject (st : Store) (callerId pk : Nat) : Option User :=
  (employeeBase st callerId).find? (fun u => u.id == pk)

/-- Source `EmployeeDeleteView` (`LoginRequiredMixin, AdminRequiredMixin`):
`get_object` from the self-excluded queryset, delete the row, success
notice. -/
def employeeDeleteView (p : Principal) (st : Store) (pk : Nat) :
    Store × List Msg × Resp :=
  if adminViewGuard p then
    match p with
    | .anonymous => accessDenied st
    | .user callerId _ =>
      match employeeGetObject st callerId pk with
      | none => (st, [], .notFound)
      | some obj =>
        ({ st with users := st.users.filter (fun u => u.id != pk) },
         [⟨.success, "Employé " ++ obj.fullName ++ " supprimé !"⟩],
         .redirectEmployeeList)
  else accessDenied st

/-! ## Supplier / Category / Product delete views (all admin-gated) -/

/-- Source `SupplierDeleteView` (`LoginRequiredMixin, AdminRequiredMixin`). -/
def supplierDeleteView (p : Principal) (st : Store) (pk : Nat) :
    Store × List Msg × Resp :=
  if adminViewGuard p then
    match st.suppliers.find? (fun s => s.id == pk) with
    | none => (st, [], .notFound)
    | some obj =>
      ({ st with suppliers := st.suppliers.filter (fun s => s.id != pk) },
       [⟨.success, "Fournisseur " ++ obj.name ++ " supprimé !"⟩],
       .redirectSupplierList)
  else accessDenied st

/-- Source `CategoryDeleteView` (`LoginRequiredMixin, AdminRequiredMixin`). -/
def categoryDeleteView (p : Principal) (st : Store) (pk : Nat) :
    Store × List Msg × Resp :=
  if adminViewGuard p then
    match st.categories.find? (fun c => c.id == pk) with
    | none => (st, [], .notFound)
    | some obj =>
      ({ st with categories := st.categories.filter (fun c => c.id != pk) },
       [⟨.success, "Catégorie \x27" ++ obj.name ++ "\x27 supprimée !"⟩],
       .redirectCategoryList)
  else accessDenied st

/-- The two persistence steps of `ProductDeleteView.delete`:
`obj.items.all().delete()` first (explicit cascade over the SaleItems
referencing the product), then `super().delete()` removes the Product. -/
def deleteProductItems (st : Store) (pid : Nat) : Store :=
  { st with saleItems := st.saleItems.filter (fun it => it.productId != pid) }

def deleteProductRow (st : Store) (pid : Nat) : Store :=
  { st with products := st.products.filter (fun p => p.id != pid) }

/-- Source `ProductDeleteView` (`LoginRequiredMixin, AdminRequiredMixin`):
cascade the product's SaleItems, then delete the product. -/
def productDeleteView (p : Principal) (st : Store) (pk : Nat) :
    Store × List Msg × Resp :=
  if adminViewGuard p then
    match st.products.find? (fun pr => pr.id == pk) with
    | none => (st, [], .notFound)
    | some obj =>
      (deleteProductRow (deleteProductItems st pk) pk,
       [⟨.success, "Produit \x27" ++ obj.name
          ++ "\x27 et ses éléments de vente associés ont été supprimés."⟩],
       .redirectProductList)
  else accessDenied st

/-! ## Sale list, bulk delete, single delete, JSON detail -/

/-- Source `SaleSearchForm` parameters; empty string / `none` model absent or
blank values (Python truthiness in the view). -/
structure SaleSearchParams where
  productName : String
  invoiceNumber : String
  cashier : Option Nat
  status : String
  dateFrom : Option Nat
  dateTo : Option Nat
deriving Repr, DecidableEq

/-- Source `SaleListView.get_queryset`: order by `-date`, then the optional
filters.  The `items__product__name__icontains` join filter with
`.distinct()` keeps the sales having at least one item whose product name
matches.  `date__date__gte/__lte` compare the calendar-date part, here via
`DateTime.dateKey`. -/
def saleListQueryset (st : Store) (q : SaleSearchParams) : List Sale :=
  let qs := sortBy (fun a b => decide (b.date.key ≤ a.date.key)) st.sales
  let qs := if q.productName != "" then
      qs.filter (fun s => (saleItemsOf st s.id).any (fun it =>
        (st.products.find? (fun p => p.id == it.productId)).elim false
          (fun p => icontains p.name q.productName)))
    else qs
  let qs := if q.invoiceNumber != "" then
      qs.filter (fun s => icontains s.invoiceNumber q.invoiceNumber) else qs
  let qs := match q.cashier with
    | some cid => qs.filter (fun s => s.cashierId == cid)
    | none => qs
  let qs := if q.status != "" then qs.filter (fun s => s.status == q.status) else qs
  let qs := match q.dateFrom with
    | some k => qs.filter (fun s => k ≤ s.date.dateKey)
    | none => qs
  match q.dateTo with
  | some k => qs.filter (fun s => s.date.dateKey ≤ k)
  | none => qs

/-- One page of a paginated list (`paginate_by` = `pageSize`, 1-based
`page` number): Django's `Paginator` slice for that page. -/
def paginatePage (l : List Sale) (pageSize page : Nat) : List Sale :=
  (l.drop ((page - 1) * pageSize)).take pageSize

/-- Source `SaleListView.get_context_data`: the page object (`paginate_by = 7`)
and `total_revenue = sum(s.total_amount for s in ctx["page_obj"])`. -/
def saleListContext (st : Store) (q : SaleSearchParams) (page : Nat) :
    List Sale × Nat :=
  let pageObj := paginatePage (saleListQueryset st q) 7 page
  (pageObj, (pageObj.map (fun s => s.totalAmount)).sum)

/-- Deleting the set of sales whose id is in `ids`, with the store-level
cascade over their SaleItems (`SaleItem` rows are owned by their Sale). -/
def deleteSalesIn (st : Store) (ids : List Nat) : Store :=
  { st with
    sales := st.sales.filter (fun s => !ids.contains s.id),
    saleItems := st.saleItems.filter (fun it =>
      !(st.sales.any (fun s => s.id == it.saleId && ids.contains s.id))) }

/-- Source `SaleBulkDeleteView.post` (`LoginRequiredMixin` only): with a non-empty
id list, count the matching sales, delete them and report that count; with
an empty list, no-op with an informational notice. -/
def saleBulkDeleteView (p : Principal) (st : Store) (ids : List Nat) :
    Store × List Msg × Resp :=
  if loginViewGuard p then
    if !ids.isEmpty then
      let count := (st.sales.filter (fun s => ids.contains s.id)).length
      (deleteSalesIn st ids,
       [⟨.success, toString count ++ " vente(s) supprimée(s)."⟩],
       .redirectSaleList)
    else
      (st, [⟨.info, "Aucune vente sélectionnée."⟩], .redirectSaleList)
  else (st, [], .redirectLogin)

/-- Source `SaleDeleteView` (`LoginRequiredMixin` only — no admin mixin in the
source): get the sale, delete it (items cascade), success notice. -/
def saleDeleteView (p : Principal) (st : Store) (pk : Nat) :
    Store × List Msg × Resp :=
  if loginViewGuard p then
    match st.sales.find? (fun s => s.id == pk) with
    | none => (st, [], .notFound)
    | some sale =>
      ({ st with sales := st.sales.filter (fun s => s.id != pk),
                 saleItems := st.saleItems.filter (fun it => it.saleId != pk) },
       [⟨.success, "Vente " ++ sale.invoiceNumber ++ " supprimée."⟩],
       .redirectSaleList)
  else (st, [], .redirectLogin)

/-! ## JSON projection (`sale_detail_json`) -/

structure ItemJson where
  product : String
  quantity : Nat
  unit_price : String
  line_total : String
deriving Repr, DecidableEq

structure SaleJson where
  invoice_number : String
  date : String
  cashier : String
  subtotal : String
  discount : String
  total_amount : String
  items : List ItemJson
deriving Repr, DecidableEq

/-- Source `item.product.name` resolved through the store. -/
def productNameOf (st : Store) (pid : Nat) : String :=
  (st.products.find? (fun p => p.id == pid)).elim "" (fun p => p.name)

/-- Source `sale.cashier.get_full_name()` resolved through the store. -/
def cashierNameOf (st : Store) (uid : Nat) : String :=
  (st.users.find? (fun u => u.id == uid)).elim "" User.fullName

/-- Source `sale_detail_json(request, pk)`: `none` is the Http404 outcome;
otherwise the JSON body.  `subtotal` is `sum(item.line_total ...)`,
`discount` is `getattr(sale, "discount", 0)` (the stored value when the
sale has one, else 0), and every monetary field goes through `f"{x:.2f}"`
(= `fmt2`). -/
def sale_detail_json (st : Store) (pk : Nat) : Option SaleJson :=
  match st.sales.find? (fun s => s.id == pk) with
  | none => none
  | some sale =>
    some { invoice_number := sale.invoiceNumber,
           date := fmtDate sale.date,
           cashier := cashierNameOf st sale.cashierId,
           subtotal := fmt2 (saleTotalFromItems st pk),
           discount := fmt2 (sale.discount.getD 0),
           total_amount := fmt2 sale.totalAmount,
           items := (saleItemsOf st pk).map (fun it =>
             { product := productNameOf st it.productId,
               quantity := it.quantity,
               unit_price := fmt2 it.unitPrice,
               line_total := fmt2 it.lineTotal }) }

/-! ## Concrete fixtures used by the closed instances below -/

def uAlice : User := ⟨1, "Alice", "Martin", "alice@example.com", "admin", true, 100⟩

def uBob : User := ⟨2, "Bob", "Durand", "bob@example.com", "cashier", true, 90⟩

def uCara : User := ⟨3, "Cara", "Lefevre", "cara@shop.fr", "cashier", false, 80⟩

def pCoffee : Product := ⟨1, "Café"⟩

def pTea : Product := ⟨2, "Thé"⟩

def sale1 : Sale := ⟨1, "INV-001", ⟨2024, 5, 3, 14, 30⟩, 2, "completed", 2500, none⟩

def sale2 : Sale := ⟨2, "INV-002", ⟨2024, 5, 4, 9, 0⟩, 2, "completed", 500, none⟩

def sale3 : Sale := ⟨3, "INV-003", ⟨2024, 5, 5, 10, 0⟩, 3, "pending", 700, none⟩

def item11 : SaleItem := ⟨1, 1, 2, 1000⟩

def item12 : SaleItem := ⟨1, 2, 1, 500⟩

def item21 : SaleItem := ⟨2, 2, 1, 500⟩

def demoStore : Store :=
  ⟨[uAlice, uBob, uCara], [⟨1, "ACME"⟩], [⟨1, "Boissons"⟩],
   [pCoffee, pTea], [sale1, sale2, sale3], [item11, item12, item21]⟩

def hdrA : SaleHeaderForm := ⟨true, "INV-100", ⟨2024, 6, 1, 12, 0⟩, 2, "completed"⟩

def fsA : List SaleItemForm := [⟨true, 1, 3, 1000⟩, ⟨true, 2, 2, 500⟩]

def hdrBad : SaleHeaderForm := ⟨false, "INV-101", ⟨2024, 6, 2, 12, 0⟩, 2, "completed"⟩

def fsBad : List SaleItemForm := [⟨true, 1, 1, 1000⟩, ⟨false, 2, 0, 0⟩]

def regBad : RegisterForm := ⟨false, uCara⟩

def emptyParams : SaleSearchParams := ⟨"", "", none, "", none, none⟩

/-! ## General lemmas about the embedding's helpers -/

theorem mem_insertSortedBy {α : Type} (le : α → α → Bool) (a x : α) (l : List α) :
    x ∈ insertSortedBy le a l ↔ x = a ∨ x ∈ l := by
  induction l with
  | nil => simp [insertSortedBy]
  | cons b t ih =>
    by_cases h : le a b = true
    all_goals simp [insertSortedBy, h, ih]
    all_goals tauto

theorem mem_sortBy {α : Type} (le : α → α → Bool) (x : α) (l : List α) :
    x ∈ sortBy le l ↔ x ∈ l := by
  induction l with
  | nil => simp [sortBy]
  | cons a t ih => simp [sortBy, mem_insertSortedBy, ih]

theorem filter_not_filter {α : Type} (p : α → Bool) (l : List α) :
    (l.filter (fun a => !p a)).filter p = [] := by
  induction l with
  | nil => rfl
  | cons a t ih => by_cases h : p a = true <;> simp [List.filter_cons, h, ih]

theorem saleItemsOf_setSaleTotal (st : Store) (sid t sid2 : Nat) :
    saleItemsOf (setSaleTotal st sid t) sid2 = saleItemsOf st sid2 := rfl

theorem saleTotalFromItems_setSaleTotal (st : Store) (sid t sid2 : Nat) :
    saleTotalFromItems (setSaleTotal st sid t) sid2 = saleTotalFromItems st sid2 := rfl

theorem totalAmount_setSaleTotal (st : Store) (sid t : Nat) :
    ∀ s ∈ (setSaleTotal st sid t).sales, s.id = sid → s.totalAmount = t := by
  intro s hs hid
  simp only [setSaleTotal, List.mem_map] at hs
  obtain ⟨s0, _, hmap⟩ := hs
  by_cases h : s0.id = sid
  · rw [← hmap]
    simp [h]
  · exfalso
    rw [← hmap] at hid
    simp [beq_iff_eq, h] at hid

/-! ## C1 -/

/-- C1: immediately after a successful `sale_create` or `sale_update`, the
stored `total_amount` of the affected Sale equals the sum of
`quantity * unit_price` over that Sale's current SaleItems in the
resulting store — rederived from the current items. -/
theorem sale_total_recomputed (st : Store) (freshId pk : Nat)
    (hdr : SaleHeaderForm) (fs : List SaleItemForm)
    (hv : hdr.isValid = true) (hfs : fs.all (fun f => f.isValid) = true) :
    (∀ s ∈ (sale_create st freshId hdr fs).1.sales, s.id = freshId →
        s.totalAmount = saleTotalFromItems (sale_create st freshId hdr fs).1 freshId)
    ∧ (∀ sale0, st.sales.find? (fun s => s.id == pk) = some sale0 →
        ∀ s ∈ (sale_update st pk hdr fs).1.sales, s.id = pk →
          s.totalAmount = saleTotalFromItems (sale_update st pk hdr fs).1 pk) := by
  constructor
  · intro s hs hid
    simp only [sale_create, hv, hfs, Bool.and_self, if_pos] at hs ⊢
    rw [saleTotalFromItems_setSaleTotal]
    exact totalAmount_setSaleTotal _ _ _ s hs hid
  · intro sale0 hfind s hs hid
    simp only [sale_update, hfind, hv, hfs, Bool.and_self, if_pos] at hs ⊢
    rw [saleTotalFromItems_setSaleTotal]
    exact totalAmount_setSaleTotal _ _ _ s hs hid

/-- Witness for C1: a concrete valid create (fresh id 10) and a concrete
valid update of sale 1 in the demo store. -/
theorem sale_total_recomputed_witness :
    (∀ s ∈ (sale_create demoStore 10 hdrA fsA).1.sales, s.id = 10 →
        s.totalAmount = saleTotalFromItems (sale_create demoStore 10 hdrA fsA).1 10)
    ∧ (∀ sale0, demoStore.sales.find? (fun s => s.id == 1) = some sale0 →
        ∀ s ∈ (sale_update demoStore 1 hdrA fsA).1.sales, s.id = 1 →
          s.totalAmount = saleTotalFromItems (sale_update demoStore 1 hdrA fsA).1 1) :=
  sale_total_recomputed demoStore 10 1 hdrA fsA (by decide) (by decide)

/-! ## C2 -/

/-- C2: if the header or any single line item fails validation, the sale
submission persists nothing — the store after `sale_create` (and after
`sale_update`) is exactly the store before. -/
theorem sale_submission_atomic (st : Store) (freshId pk : Nat)
    (hdr : SaleHeaderForm) (fs : List SaleItemForm)
    (hinv : hdr.isValid = false ∨ ∃ f ∈ fs, f.isValid = false) :
    (sale_create st freshId hdr fs).1 = st ∧ (sale_update st pk hdr fs).1 = st := by
  have hcond : (hdr.isValid && fs.all (fun f => f.isValid)) = false := by
    rcases hinv with h | ⟨f, hf, hfv⟩
    · simp [h]
    · have hall : fs.all (fun f => f.isValid) = false := by
        rw [List.all_eq_false]
        exact ⟨f, hf, by simp [hfv]⟩
      simp [hall]
  constructor
  · simp [sale_create, hcond]
  · unfold sale_update
    split
    · rfl
    · simp [hcond]

/-- Witness for C2: a concrete submission whose second line item fails
validation leaves the demo store untouched. -/
theorem sale_submission_atomic_witness :
    (sale_create demoStore 10 hdrA fsBad).1 = demoStore
    ∧ (sale_update demoStore 1 hdrA fsBad).1 = demoStore :=
  sale_submission_atomic demoStore 10 1 hdrA fsBad
    (Or.inr ⟨⟨false, 2, 0, 0⟩, by decide, rfl⟩)

/-! ## C3 -/

/-- C3: a successful Product delete removes the product's SaleItems as the
explicit first step and then the Product row itself: afterwards no SaleItem
references the product and the product is absent, while every other
product, every SaleItem of other products, and the sales and users tables
are untouched. -/
theorem product_delete_cascades (p : Principal) (st : Store) (pk : Nat)
    (obj : Product) (hadm : adminViewGuard p = true)
    (hfind : st.products.find? (fun pr => pr.id == pk) = some obj) :
    (productDeleteView p st pk).1.saleItems.filter (fun it => it.productId == pk) = []
    ∧ (productDeleteView p st pk).1.products.find? (fun pr => pr.id == pk) = none
    ∧ (productDeleteView p st pk).1.saleItems
        = st.saleItems.filter (fun it => it.productId != pk)
    ∧ (productDeleteView p st pk).1.products
        = st.products.filter (fun pr => pr.id != pk)
    ∧ (productDeleteView p st pk).1.sales = st.sales
    ∧ (productDeleteView p st pk).1.users = st.users
    ∧ (productDeleteView p st pk).1 = deleteProductRow (deleteProductItems st pk) pk := by
  have hres : (productDeleteView p st pk).1
      = deleteProductRow (deleteProductItems st pk) pk := by
    simp [productDeleteView, hadm, hfind]
  refine ⟨?_, ?_, ?_, ?_, ?_, ?_, hres⟩ <;> rw [hres]
  · exact filter_not_filter (fun it => it.productId == pk) st.saleItems
  · rw [List.find?_eq_none]
    intro x hx
    simp only [deleteProductRow, deleteProductItems, List.mem_filter] at hx
    simpa using hx.2
  · rfl
  · rfl
  · rfl
  · rfl

/-- Witness for C3: deleting product 2 of the demo store (an admin caller);
product 2 has two associated SaleItems, both gone afterwards. -/
theorem product_delete_cascades_witness :
    (productDeleteView (Principal.user 1 true) demoStore 2).1.saleItems.filter
        (fun it => it.productId == 2) = []
    ∧ (productDeleteView (Principal.user 1 true) demoStore 2).1.products.find?
        (fun pr => pr.id == 2) = none
    ∧ (productDeleteView (Principal.user 1 true) demoStore 2).1.saleItems
        = demoStore.saleItems.filter (fun it => it.productId != 2)
    ∧ (productDeleteView (Principal.user 1 true) demoStore 2).1.products
        = demoStore.products.filter (fun pr => pr.id != 2)
    ∧ (productDeleteView (Principal.user 1 true) demoStore 2).1.sales = demoStore.sales
    ∧ (productDeleteView (Principal.user 1 true) demoStore 2).1.users = demoStore.users
    ∧ (productDeleteView (Principal.user 1 true) demoStore 2).1
        = deleteProductRow (deleteProductItems demoStore 2) 2 :=
  product_delete_cascades (Principal.user 1 true) demoStore 2 pTea rfl (by decide)

/-! ## C4 -/

theorem filter_contains_length (sales : List Sale) (ids : List Nat)
    (hids : ids.Nodup) (hsid : (sales.map (fun s => s.id)).Nodup)
    (hall : ∀ i ∈ ids, ∃ s ∈ sales, s.id = i) :
    (sales.filter (fun s => ids.contains s.id)).length = ids.length := by
  set f := sales.filter (fun s => ids.contains s.id) with hf
  have hsub : (f.map (fun s => s.id)).Sublist (sales.map (fun s => s.id)) :=
    List.Sublist.map _ (List.filter_sublist sales)
  have hnd : (f.map (fun s => s.id)).Nodup := List.Nodup.sublist hsub hsid
  have hset : (f.map (fun s => s.id)).toFinset = ids.toFinset := by
    ext i
    simp only [List.mem_toFinset, List.mem_map]
    constructor
    · rintro ⟨s, hs, rfl⟩
      rw [hf, List.mem_filter] at hs
      simpa using hs.2
    · intro hi
      obtain ⟨s, hs, hsi⟩ := hall i hi
      exact ⟨s, by rw [hf, List.mem_filter]; exact ⟨hs, by simp [hsi, hi]⟩, hsi⟩
  have h1 : (f.map (fun s => s.id)).length = ids.length := by
    rw [← List.toFinset_card_of_nodup hnd, ← List.toFinset_card_of_nodup hids, hset]
  simpa using h1

/-- C4: for an authenticated caller, bulk delete over a duplicate-free set
of identifiers of existing Sales removes exactly the Sales whose id is in
the set and reports their number; with the empty id list it deletes
nothing and emits an informational notice. -/
theorem sale_bulk_delete_exact (uid : Nat) (adm : Bool) (st : Store)
    (ids : List Nat) (hids : ids.Nodup)
    (hsid : (st.sales.map (fun s => s.id)).Nodup)
    (hall : ∀ i ∈ ids, ∃ s ∈ st.sales, s.id = i) :
    (ids ≠ [] →
      (saleBulkDeleteView (Principal.user uid adm) st ids).1.sales
          = st.sales.filter (fun s => !ids.contains s.id)
      ∧ (saleBulkDeleteView (Principal.user uid adm) st ids).2.1
          = [⟨MsgLevel.success, toString ids.length ++ " vente(s) supprimée(s)."⟩]
      ∧ (saleBulkDeleteView (Principal.user uid adm) st ids).2.2 = Resp.redirectSaleList)
    ∧ (ids = [] →
      (saleBulkDeleteView (Principal.user uid adm) st ids).1 = st
      ∧ (saleBulkDeleteView (Principal.user uid adm) st ids).2.1
          = [⟨MsgLevel.info, "Aucune vente sélectionnée."⟩]
      ∧ (saleBulkDeleteView (Principal.user uid adm) st ids).2.2 = Resp.redirectSaleList) := by
  constructor
  · intro hne
    have hcount := filter_contains_length st.sales ids hids hsid hall
    have hguard : loginViewGuard (Principal.user uid adm) = true := rfl
    have hnemp : ids.isEmpty = false := by
      cases ids with
      | nil => exact absurd rfl hne
      | cons a t => rfl
    have hcount2 : (st.sales.filter (fun s => decide (s.id ∈ ids))).length = ids.length := by
      simpa using hcount
    refine ⟨?_, ?_, ?_⟩ <;>
      simp [saleBulkDeleteView, hguard, hnemp, deleteSalesIn, hcount2]
  · intro hnil
    subst hnil
    refine ⟨rfl, rfl, rfl⟩

/-- Witness for C4: bulk-deleting sales 1 and 3 of the demo store removes
exactly those two and reports the count 2; the empty list is a no-op with
an informational notice. -/
theorem sale_bulk_delete_exact_witness :
    (([1, 3] : List Nat) ≠ [] →
      (saleBulkDeleteView (Principal.user 2 false) demoStore [1, 3]).1.sales
          = demoStore.sales.filter (fun s => !([1, 3] : List Nat).contains s.id)
      ∧ (saleBulkDeleteView (Principal.user 2 false) demoStore [1, 3]).2.1
          = [⟨MsgLevel.success, toString ([1, 3] : List Nat).length ++ " vente(s) supprimée(s)."⟩]
      ∧ (saleBulkDeleteView (Principal.user 2 false) demoStore [1, 3]).2.2 = Resp.redirectSaleList)
    ∧ (([1, 3] : List Nat) = [] →
      (saleBulkDeleteView (Principal.user 2 false) demoStore [1, 3]).1 = demoStore
      ∧ (saleBulkDeleteView (Principal.user 2 false) demoStore [1, 3]).2.1
          = [⟨MsgLevel.info, "Aucune vente sélectionnée."⟩]
      ∧ (saleBulkDeleteView (Principal.user 2 false) demoStore [1, 3]).2.2 = Resp.redirectSaleList) :=
  sale_bulk_delete_exact 2 false demoStore [1, 3] (by decide) (by decide)
    (by intro i hi
        fin_cases hi
        · exact ⟨sale1, by decide, rfl⟩
        · exact ⟨sale3, by decide, rfl⟩)

/-! ## Membership characterization of the employee list queryset -/

theorem mem_if_filter {α : Type} (c : Bool) (p : α → Bool) (l : List α) (x : α) :
    x ∈ (if c = true then l.filter p else l) ↔ x ∈ l ∧ (c = true → p x = true) := by
  by_cases h : c = true <;> simp [h, List.mem_filter]

theorem mem_status_filter (status : String) (l : List User) (x : User) :
    x ∈ (if (status == "active") = true then l.filter (fun u => u.isActive)
         else if (status == "inactive") = true then l.filter (fun u => !u.isActive)
         else l) ↔
      (x ∈ l ∧ (status = "active" → x.isActive = true)
        ∧ (status = "inactive" → x.isActive = false)) := by
  by_cases h1 : status = "active"
  · subst h1
    simp [List.mem_filter]
  · by_cases h2 : status = "inactive"
    · subst h2
      simp [List.mem_filter]
    · simp [h1, h2]

theorem mem_employeeListQueryset (st : Store) (callerId : Nat)
    (search role status : String) (u : User) :
    u ∈ employeeListQueryset st callerId search role status ↔
      (u ∈ employeeBase st callerId
       ∧ (search ≠ "" → matchesEmployeeSearch u search = true)
       ∧ (role ≠ "" → u.role = role)
       ∧ (status = "active" → u.isActive = true)
       ∧ (status = "inactive" → u.isActive = false)) := by
  simp only [employeeListQueryset]
  rw [mem_status_filter, mem_if_filter, mem_if_filter, mem_sortBy]
  simp only [bne_iff_ne, beq_iff_eq, ne_eq]
  tauto

/-! ## C5 -/

/-- C5: every employee screen operates over
`User.objects.exclude(pk=request.user.pk)`: the caller's own row is never
in the list queryset (for any search/role/status parameters), and the
single-object lookup used by detail/update/delete returns nothing for the
caller's own pk, so those operations 404 instead of acting on it. -/
theorem employee_self_excluded (st : Store) (callerId : Nat)
    (search role status : String) :
    (∀ u ∈ employeeListQueryset st callerId search role status, u.id ≠ callerId)
    ∧ employeeGetObject st callerId callerId = none := by
  constructor
  · intro u hu
    rw [mem_employeeListQueryset] at hu
    have hb := hu.1
    rw [employeeBase, List.mem_filter] at hb
    simpa using hb.2
  · rw [employeeGetObject, List.find?_eq_none]
    intro x hx
    rw [employeeBase, List.mem_filter] at hx
    simpa using hx.2

/-- Witness for C5: in the demo store, admin 1 never sees their own row in
the employee list and cannot fetch it by pk. -/
theorem employee_self_excluded_witness :
    (∀ u ∈ employeeListQueryset demoStore 1 "" "" "", u.id ≠ 1)
    ∧ employeeGetObject demoStore 1 1 = none :=
  employee_self_excluded demoStore 1 "" "" ""

/-! ## C6 -/

/-- C6: a non-empty employee free-text term selects exactly the records
(of the self-excluded base set) whose first name OR last name OR email
contains it case-insensitively, and adding a role or status filter selects
exactly the intersection — membership in the combined result is the
conjunction of membership under each filter alone. -/
theorem employee_search_or_and (st : Store) (callerId : Nat)
    (search role status : String) (hs : search ≠ "") (u : User) :
    u ∈ employeeListQueryset st callerId search role status ↔
      (u ∈ employeeBase st callerId
       ∧ (icontains u.firstName search = true ∨ icontains u.lastName search = true
          ∨ icontains u.email search = true)
       ∧ (role ≠ "" → u.role = role)
       ∧ (status = "active" → u.isActive = true)
       ∧ (status = "inactive" → u.isActive = false)) := by
  rw [mem_employeeListQueryset]
  simp only [matchesEmployeeSearch, Bool.or_eq_true, ne_eq, hs, not_false_iff,
    forall_true_left, or_assoc]

/-- Witness for C6: the term "bo" with the status filter "active" in the
demo store, instantiated at user Bob. -/
theorem employee_search_or_and_witness :
    uBob ∈ employeeListQueryset demoStore 1 "bo" "" "active" ↔
      (uBob ∈ employeeBase demoStore 1
       ∧ (icontains uBob.firstName "bo" = true ∨ icontains uBob.lastName "bo" = true
          ∨ icontains uBob.email "bo" = true)
       ∧ (("" : String) ≠ "" → uBob.role = "")
       ∧ (("active" : String) = "active" → uBob.isActive = true)
       ∧ (("active" : String) = "inactive" → uBob.isActive = false)) :=
  employee_search_or_and demoStore 1 "bo" "" "active" (by decide) uBob

/-! ## C7 -/

theorem pad2_spec : ∀ n < 100, (pad2 n).length = 2 ∧ (pad2 n).data.all Char.isDigit = true := by
  decide

theorem fmt2_two_decimal_places (c : Nat) : TwoDecimalPlaces (fmt2 c) := by
  refine ⟨toString (c / 100), pad2 (c % 100), rfl, ?_, ?_⟩
  · exact (pad2_spec (c % 100) (Nat.mod_lt c (by norm_num))).1
  · exact (pad2_spec (c % 100) (Nat.mod_lt c (by norm_num))).2

/-- C7: the JSON projection of an existing Sale carries exactly the invoice
number, the date rendered `dd/mm/yyyy HH:MM`, the cashier's display name,
a subtotal equal to the sum of the items' line totals, the discount
(rendered "0.00" when the sale has none), the stored total amount, and the
ordered item list with product name, quantity, unit price and line total —
every monetary value a string with exactly two decimal places. -/
theorem sale_json_projection (st : Store) (pk : Nat) (sale : Sale)
    (hfind : st.sales.find? (fun s => s.id == pk) = some sale) :
    ∃ j, sale_detail_json st pk = some j
      ∧ j.invoice_number = sale.invoiceNumber
      ∧ j.date = fmtDate sale.date
      ∧ j.cashier = cashierNameOf st sale.cashierId
      ∧ j.subtotal = fmt2 (((saleItemsOf st pk).map SaleItem.lineTotal).sum)
      ∧ (sale.discount = none → j.discount = "0.00")
      ∧ j.total_amount = fmt2 sale.totalAmount
      ∧ j.items = (saleItemsOf st pk).map (fun it =>
          { product := productNameOf st it.productId, quantity := it.quantity,
            unit_price := fmt2 it.unitPrice, line_total := fmt2 it.lineTotal })
      ∧ TwoDecimalPlaces j.subtotal ∧ TwoDecimalPlaces j.discount
      ∧ TwoDecimalPlaces j.total_amount
      ∧ (∀ itj ∈ j.items, TwoDecimalPlaces itj.unit_price
          ∧ TwoDecimalPlaces itj.line_total) := by
  refine ⟨{ invoice_number := sale.invoiceNumber,
            date := fmtDate sale.date,
            cashier := cashierNameOf st sale.cashierId,
            subtotal := fmt2 (saleTotalFromItems st pk),
            discount := fmt2 (sale.discount.getD 0),
            total_amount := fmt2 sale.totalAmount,
            items := (saleItemsOf st pk).map (fun it =>
              { product := productNameOf st it.productId, quantity := it.quantity,
                unit_price := fmt2 it.unitPrice, line_total := fmt2 it.lineTotal }) },
          ?_, rfl, rfl, rfl, rfl, ?_, rfl, rfl, ?_, ?_, ?_, ?_⟩
  · rw [sale_detail_json, hfind]
  · intro hd
    simp only [hd, Option.getD_none]
    rfl
  · exact fmt2_two_decimal_places _
  · exact fmt2_two_decimal_places _
  · exact fmt2_two_decimal_places _
  · intro itj hj
    simp only [List.mem_map] at hj
    obtain ⟨it, _, hmap⟩ := hj
    rw [← hmap]
    exact ⟨fmt2_two_decimal_places _, fmt2_two_decimal_places _⟩

/-- Witness for C7: the projection of sale 1 of the demo store, whose items
are (qty 2, price 10.00) and (qty 1, price 5.00). -/
theorem sale_json_projection_witness :
    ∃ j, sale_detail_json demoStore 1 = some j
      ∧ j.invoice_number = sale1.invoiceNumber
      ∧ j.date = fmtDate sale1.date
      ∧ j.cashier = cashierNameOf demoStore sale1.cashierId
      ∧ j.subtotal = fmt2 (((saleItemsOf demoStore 1).map SaleItem.lineTotal).sum)
      ∧ (sale1.discount = none → j.discount = "0.00")
      ∧ j.total_amount = fmt2 sale1.totalAmount
      ∧ j.items = (saleItemsOf demoStore 1).map (fun it =>
          { product := productNameOf demoStore it.productId, quantity := it.quantity,
            unit_price := fmt2 it.unitPrice, line_total := fmt2 it.lineTotal })
      ∧ TwoDecimalPlaces j.subtotal ∧ TwoDecimalPlaces j.discount
      ∧ TwoDecimalPlaces j.total_amount
      ∧ (∀ itj ∈ j.items, TwoDecimalPlaces itj.unit_price
          ∧ TwoDecimalPlaces itj.line_total) :=
  sale_json_projection demoStore 1 sale1 (by decide)

/-! ## C8 — the Sale views carry only `LoginRequiredMixin` in the source -/

/-- Counterexample to C8: an authenticated non-admin principal (user 2,
`is_admin() = false`) is NOT rejected by the Sale delete view — it passes
the guard, the delete executes (sale 1 disappears from the store) and a
success notice is emitted instead of an access-denied redirect to login. -/
theorem sale_delete_not_admin_only_cx :
    adminViewGuard (Principal.user 2 false) = false
    ∧ (saleDeleteView (Principal.user 2 false) demoStore 1).2.2 = Resp.redirectSaleList
    ∧ (saleDeleteView (Principal.user 2 false) demoStore 1).1.sales.find?
        (fun s => s.id == 1) = none
    ∧ (saleDeleteView (Principal.user 2 false) demoStore 1).2.1
        = [⟨MsgLevel.success, "Vente INV-001 supprimée."⟩] := by
  refine ⟨rfl, rfl, ?_, rfl⟩
  decide

/-- C8 as amended: the Employee, Supplier, Category and Product delete
views are admin-only — any unauthenticated or non-admin principal gets the
access-denied notice, a redirect to login, and an unchanged store — while
the Sale delete view requires only authentication: anonymous callers are
redirected to login (without the notice), and every authenticated
principal, admin or not, passes its guard. -/
theorem delete_views_guards (p : Principal) (st : Store) (pk uid : Nat)
    (hna : adminViewGuard p = false) :
    employeeDeleteView p st pk = accessDenied st
    ∧ supplierDeleteView p st pk = accessDenied st
    ∧ categoryDeleteView p st pk = accessDenied st
    ∧ productDeleteView p st pk = accessDenied st
    ∧ saleDeleteView Principal.anonymous st pk = (st, [], Resp.redirectLogin)
    ∧ loginViewGuard (Principal.user uid false) = true := by
  refine ⟨?_, ?_, ?_, ?_, rfl, rfl⟩
  · cases p with
    | anonymous => rfl
    | user i adm => simp [employeeDeleteView, adminViewGuard] at hna ⊢; simp [hna]
  · simp [supplierDeleteView, hna]
  · simp [categoryDeleteView, hna]
  · simp [productDeleteView, hna]

/-- Witness for the amended C8 at the non-admin principal user 2. -/
theorem delete_views_guards_witness :
    employeeDeleteView (Principal.user 2 false) demoStore 3 = accessDenied demoStore
    ∧ supplierDeleteView (Principal.user 2 false) demoStore 1 = accessDenied demoStore
    ∧ categoryDeleteView (Principal.user 2 false) demoStore 1 = accessDenied demoStore
    ∧ productDeleteView (Principal.user 2 false) demoStore 1 = accessDenied demoStore
    ∧ saleDeleteView Principal.anonymous demoStore 1 = (demoStore, [], Resp.redirectLogin)
    ∧ loginViewGuard (Principal.user 2 false) = true :=
  delete_views_guards (Principal.user 2 false) demoStore 1 2 rfl

/-! ## C9 — no error notification from the entity create views -/

/-- Counterexample to C9: a sale submission with an invalid header
re-renders with field errors and persists nothing, but the emitted message
list is EMPTY — no error notification is produced by `sale_create`. -/
theorem invalid_create_no_error_notice_cx :
    (sale_create demoStore 10 hdrBad fsA).1 = demoStore
    ∧ (sale_create demoStore 10 hdrBad fsA).2.1 = []
    ∧ (sale_create demoStore 10 hdrBad fsA).2.2 = Resp.renderForm true := by
  refine ⟨?_, rfl, rfl⟩
  decide

/-- C9 as amended: on validation failure nothing is persisted and the form
is re-rendered with field-level errors (never a fatal error) — but an
error notification accompanies this only in the user-registration view;
the sale create/update views re-render with an empty message list. -/
theorem invalid_submission_behaviour (st : Store) (freshId pk : Nat)
    (hdr : SaleHeaderForm) (fs : List SaleItemForm) (f : RegisterForm)
    (hinv : (hdr.isValid && fs.all (fun x => x.isValid)) = false)
    (hrf : f.isValid = false) :
    sale_create st freshId hdr fs = (st, [], Resp.renderForm true)
    ∧ (∀ sale0, st.sales.find? (fun s => s.id == pk) = some sale0 →
        sale_update st pk hdr fs = (st, [], Resp.renderForm true))
    ∧ registerView st f
        = (st, [⟨MsgLevel.error, "Erreur dans le formulaire, vérifiez vos informations."⟩],
           Resp.renderForm true) := by
  refine ⟨?_, ?_, ?_⟩
  · simp [sale_create, hinv]
  · intro sale0 hfind
    simp [sale_update, hfind, hinv]
  · simp [registerView, hrf]

/-- Witness for the amended C9: the invalid header form on the demo store,
both for a create and for an update of sale 1, and an invalid
registration form. -/
theorem invalid_submission_behaviour_witness :
    sale_create demoStore 10 hdrBad fsA = (demoStore, [], Resp.renderForm true)
    ∧ (∀ sale0, demoStore.sales.find? (fun s => s.id == 1) = some sale0 →
        sale_update demoStore 1 hdrBad fsA = (demoStore, [], Resp.renderForm true))
    ∧ registerView demoStore regBad
        = (demoStore, [⟨MsgLevel.error, "Erreur dans le formulaire, vérifiez vos informations."⟩],
           Resp.renderForm true) :=
  invalid_submission_behaviour demoStore 10 1 hdrBad fsA regBad (by decide) (by decide)

/-! ## C10 -/

/-- C10: the `total_revenue` value of the sale list context is the sum of
`total_amount` over only the sales of the requested page (a page holds at
most 7 records), not over the whole filtered queryset — on the demo store,
page 2 is empty, so its revenue 0 differs from the full filtered sum. -/
theorem sale_list_revenue_page_only (st : Store) (q : SaleSearchParams) (page : Nat) :
    (saleListContext st q page).2
      = ((saleListContext st q page).1.map (fun s => s.totalAmount)).sum
    ∧ (saleListContext st q page).1 = paginatePage (saleListQueryset st q) 7 page
    ∧ (saleListContext st q page).1.length ≤ 7
    ∧ (saleListContext demoStore emptyParams 2).2
        ≠ ((saleListQueryset demoStore emptyParams).map (fun s => s.totalAmount)).sum := by
  refine ⟨rfl, rfl, ?_, ?_⟩
  · exact List.length_take_le 7 _
  · decide
